import Mathlib

/-!
Shallow embedding of the AI-request orchestration layer of ExamZen
(src/services/geminiService.ts and the further revisions of the same
module kept in the repository), together with proofs about the retry
executor, the image preparer and the request builders.

The service module contains three revisions of the same code separated
by document markers; where two revisions define the same function we
embed both, suffixing the second and third with V2 / V3.
-/

/-- A JavaScript error value as inspected by the retry helpers: optional
numeric `code` and `status` fields and an optional `message` string. -/
structure JsError where
  code : Option Nat
  status : Option Nat
  message : Option String
deriving DecidableEq

/-- An error value carrying only a message, as built by `new Error(msg)`. -/
def msgErr (s : String) : JsError := ⟨none, none, some s⟩

/-- Character-list helper: the needle occurs at the head of the haystack. -/
def leadsList : List Char → List Char → Bool
  | [], _ => true
  | _ :: _, [] => false
  | c :: cs, d :: ds => c == d && leadsList cs ds

/-- Character-list helper: the needle occurs somewhere in the haystack. -/
def occursIn : List Char → List Char → Bool
  | needle, [] => leadsList needle []
  | needle, d :: ds => leadsList needle (d :: ds) || occursIn needle ds

/-- JavaScript `s.includes(sub)`. -/
def jsIncludes (s sub : String) : Bool := occursIn sub.data s.data

/-- JavaScript `s.toLowerCase()`, restricted to the ASCII case mapping
(all strings the classifiers test against are ASCII). -/
def jsToLowerCase (s : String) : String := ⟨s.data.map Char.toLower⟩

/-- Failure classifier of the first-revision `retryWithBackoff`
(src/services/geminiService.ts lines 19-24): a quota / rate-limit error is
one with `code` or `status` 429, or whose message contains "429", or whose
lowercased message contains "quota" or "resource_exhausted". -/
def isQuotaError (e : JsError) : Bool :=
  e.code == some 429 || e.status == some 429 ||
  (match e.message with
   | some m => jsIncludes m "429"
   | none => false) ||
  (match e.message with
   | some m => jsIncludes (jsToLowerCase m) "quota"
   | none => false) ||
  (match e.message with
   | some m => jsIncludes (jsToLowerCase m) "resource_exhausted"
   | none => false)

/-- `errorMessage` of the second-revision `retryWithBackoff`
(src/services/geminiService.ts line 280): the lowercased message, or ""
when absent. -/
def lowerMessage (e : JsError) : String :=
  match e.message with
  | some m => jsToLowerCase m
  | none => ""

/-- `isRateLimit` of the second-revision `retryWithBackoff`
(src/services/geminiService.ts line 281). -/
def isRateLimit (e : JsError) : Bool :=
  jsIncludes (lowerMessage e) "429" || jsIncludes (lowerMessage e) "quota"

/-- Retry condition of the second-revision `retryWithBackoff`
(src/services/geminiService.ts line 283): rate-limit, or message containing
"500" or "overloaded". -/
def isTransientV2 (e : JsError) : Bool :=
  isRateLimit e || jsIncludes (lowerMessage e) "500" ||
    jsIncludes (lowerMessage e) "overloaded"

/-- Outcome of one invocation of the wrapped asynchronous operation. -/
inductive Outcome (α : Type) where
  | ok (v : α)
  | err (e : JsError)

/-- A finished run of a retry helper: the value returned or the error
thrown, how many times the operation was invoked, and the waits inserted
between invocations (milliseconds, in order). -/
structure Run (α : Type) where
  result : Except JsError α
  calls : Nat
  waits : List ℚ

/-- First-revision `retryWithBackoff` (src/services/geminiService.ts lines
10-35), with the invocation counter made explicit: `op n` is the outcome of
the n-th invocation of `operation` (0-based).  On a quota error with budget
remaining it waits `delay`, then recurses with budget - 1 and
`min (delay * 2) 60000`; any other error, or an exhausted budget,
rethrows the error unchanged. -/
def retryV1 {α : Type} (op : Nat → Outcome α) : Nat → Nat → ℚ → Run α
  | a, 0, _ =>
    match op a with
    | .ok v => ⟨.ok v, 1, []⟩
    | .err e => ⟨.error e, 1, []⟩
  | a, r + 1, delay =>
    match op a with
    | .ok v => ⟨.ok v, 1, []⟩
    | .err e =>
      if isQuotaError e then
        let rest := retryV1 op (a + 1) r (min (delay * 2) 60000)
        ⟨rest.result, rest.calls + 1, delay :: rest.waits⟩
      else ⟨.error e, 1, []⟩

/-- Entry point of the first-revision executor. -/
def retryWithBackoff {α : Type} (op : Nat → Outcome α) (retries : Nat) (delay : ℚ) : Run α :=
  retryV1 op 0 retries delay

/-- Message thrown by the second-revision executor after a rate-limit
failure is not retried (API limit exhausted, try again in a minute). -/
def rateLimitExhaustedMsg : String :=
  "এপিআই লিমিট শেষ। ১ মিনিট পর আবার চেষ্টা করুন।"

/-- Message thrown by the second-revision executor for every other
non-retried failure (API connection failed, check internet or key). -/
def connectionFailedMsg : String :=
  "এপিআই কানেকশন ফেইল হয়েছে। অনুগ্রহ করে ইন্টারনেট বা কী চেক করুন।"

/-- Second-revision `retryWithBackoff` (src/services/geminiService.ts lines
271-293).  On a transient error (rate-limit / "500" / "overloaded") with
budget remaining it waits `delay` and recurses with `delay * 1.5` (no cap);
otherwise it throws a fresh error: the rate-limit message when the failure
was rate-limit-kind, else the generic connection-failure message. -/
def retryV2 {α : Type} (op : Nat → Outcome α) : Nat → Nat → ℚ → Run α
  | a, 0, _ =>
    match op a with
    | .ok v => ⟨.ok v, 1, []⟩
    | .err e =>
      if isRateLimit e then ⟨.error (msgErr rateLimitExhaustedMsg), 1, []⟩
      else ⟨.error (msgErr connectionFailedMsg), 1, []⟩
  | a, r + 1, delay =>
    match op a with
    | .ok v => ⟨.ok v, 1, []⟩
    | .err e =>
      if isTransientV2 e then
        let rest := retryV2 op (a + 1) r (delay * (3 / 2))
        ⟨rest.result, rest.calls + 1, delay :: rest.waits⟩
      else
        if isRateLimit e then ⟨.error (msgErr rateLimitExhaustedMsg), 1, []⟩
        else ⟨.error (msgErr connectionFailedMsg), 1, []⟩

/-- Entry point of the second-revision executor. -/
def retryWithBackoffV2 {α : Type} (op : Nat → Outcome α) (retries : Nat) (delay : ℚ) : Run α :=
  retryV2 op 0 retries delay

/-! ## Image preparation (resizeImage, second revision lines 238-268, and
the revision in src/unnamed/part_000 lines 310-339) -/

/-- One uploaded page photo (src/constants.ts): bare base64 payload plus
mime type. -/
structure ImageInput where
  base64 : String
  mimeType : String
deriving DecidableEq

/-- The data URL `img.src` is set to before decoding. -/
def imageDataUrl (mimeType base64 : String) : String :=
  "data:" ++ mimeType ++ ";base64," ++ base64

/-- Browser primitives used by `resizeImage`, treated as an environment:
`decode url` is the result of loading `url` into an `Image` (`none` when
`onerror` fires, otherwise the natural width and height), and
`toDataURL srcUrl w h mime q` is the data URL produced by drawing the
decoded image onto a `w × h` canvas and re-encoding it as `mime` at
quality `q`. -/
structure BrowserEnv where
  decode : String → Option (ℚ × ℚ)
  toDataURL : String → ℚ → ℚ → String → ℚ → String

/-- The dimension computation of `resizeImage`
(src/services/geminiService.ts lines 244-257), in exact rational
arithmetic: if the larger side exceeds `maxWidth`, both sides are scaled so
the larger side equals `maxWidth`; ties (width = height) take the second
branch. -/
def computeDims (width height maxWidth : ℚ) : ℚ × ℚ :=
  if width > height then
    if width > maxWidth then (maxWidth, height * (maxWidth / width))
    else (width, height)
  else
    if height > maxWidth then (width * (maxWidth / height), maxWidth)
    else (width, height)

/-- JavaScript `s.split(sep)` for a one-character separator, on char
lists. -/
def splitOnChar (c : Char) : List Char → List (List Char)
  | [] => [[]]
  | d :: ds =>
    match splitOnChar c ds with
    | r :: rs => if d == c then [] :: r :: rs else (d :: r) :: rs
    | [] => if d == c then [[], []] else [[d]]

/-- `dataUrl.split(',')[1]`: the payload of a data URL ("" when the encoder
output has no comma; the canvas encoder always emits one). -/
def dataUrlPayload (s : String) : String :=
  ⟨((splitOnChar ',' s.data).drop 1).headD []⟩

/-- `resizeImage` of the second revision (src/services/geminiService.ts
lines 238-268): decode, scale so the larger side is at most `maxWidth`,
re-encode at quality 0.7 and return the payload of the resulting data URL;
when decoding fails (`onerror`), resolve with the original base64. -/
def resizeImage (env : BrowserEnv) (base64 mimeType : String) (maxWidth : ℚ) : String :=
  let url := imageDataUrl mimeType base64
  match env.decode url with
  | none => base64
  | some wh =>
    let dims := computeDims wh.1 wh.2 maxWidth
    dataUrlPayload (env.toDataURL url dims.1 dims.2 mimeType (7 / 10))

/-- `resizeImage` of the revision in src/unnamed/part_000 (lines 310-339).
That revision installs no `onerror` handler, so when decoding fails neither
`resolve` is ever called and the promise never settles: the settled value
is `none`.  On success it re-encodes at quality 0.8. -/
def resizeImageNoErrorHandler (env : BrowserEnv) (base64 mimeType : String) (maxWidth : ℚ) : Option String :=
  let url := imageDataUrl mimeType base64
  match env.decode url with
  | none => none
  | some wh =>
    let dims := computeDims wh.1 wh.2 maxWidth
    some (dataUrlPayload (env.toDataURL url dims.1 dims.2 mimeType (8 / 10)))

/-! ## Request parts and builders -/

/-- One part of a generate-content request: inline image data or text. -/
inductive ReqPart where
  | inlineData (data : String) (mimeType : String)
  | text (s : String)
deriving DecidableEq

/-- `prepareImageParts` (first revision, src/services/geminiService.ts
lines 89-96): one inlineData part per image, payload passed through
unchanged. -/
def prepareImageParts (images : List ImageInput) : List ReqPart :=
  images.map fun img => .inlineData img.base64 img.mimeType

/-- `prepareImages` (second revision, src/services/geminiService.ts lines
295-302): one inlineData part per image, payload resized via `resizeImage`
with the default `maxWidth = 1024` (`Promise.all` keeps the order). -/
def prepareImages (env : BrowserEnv) (images : List ImageInput) : List ReqPart :=
  images.map fun img =>
    .inlineData (resizeImage env img.base64 img.mimeType 1024) img.mimeType

/-! ## analyzeChapter response handling (first revision, lines 98-144) -/

/-- A parsed JSON value, the result of `JSON.parse`. -/
inductive Json where
  | null
  | bool (b : Bool)
  | num (q : ℚ)
  | str (s : String)
  | arr (elems : List Json)
  | obj (fields : List (String × Json))

/-- Whether a parsed JSON value is an object carrying the given field. -/
def Json.hasField : Json → String → Bool
  | .obj fields, key => fields.any fun f => f.1 == key
  | _, _ => false

/-- Remove every occurrence of `needle` from `hay`, with explicit fuel so
the kernel can evaluate it (each step consumes at least one character, so
`hay.length + 1` fuel always suffices). -/
def removeAllFuel (needle : List Char) : Nat → List Char → List Char
  | 0, _ => []
  | _, [] => []
  | fuel + 1, d :: ds =>
    if needle ≠ [] ∧ leadsList needle (d :: ds) = true then
      removeAllFuel needle fuel ((d :: ds).drop needle.length)
    else
      d :: removeAllFuel needle fuel ds

/-- Remove every occurrence of `needle` from `hay`
(JavaScript `hay.replace(needleRegex, "")` with a global regex). -/
def removeAll (needle : List Char) (hay : List Char) : List Char :=
  removeAllFuel needle (hay.length + 1) hay

/-- JavaScript `s.trim()`. -/
def jsTrim (s : String) : String :=
  ⟨((s.data.dropWhile Char.isWhitespace).reverse.dropWhile Char.isWhitespace).reverse⟩

/-- The markdown-fence cleanup of `analyzeChapter` (first revision, line
134): `text.replace(/```json/g, "").replace(/```/g, "").trim()`. -/
def stripFences (s : String) : String :=
  jsTrim ⟨removeAll "```".data (removeAll "```json".data s.data)⟩

/-- Response handling of `analyzeChapter` (first revision,
src/services/geminiService.ts lines 132-139).  `responseText` models
`response.text` (`none` when absent); `parse` models the external
`JSON.parse`, returning `none` when it throws.  The stripped text, when
non-empty, is parsed and the parsed value returned as-is — there is no
shape validation; an empty stripped text raises "Empty response from AI". -/
def analyzeChapterHandle (responseText : Option String) (parse : String → Option Json) : Except JsError Json :=
  let text := stripFences (responseText.getD "")
  if text = "" then .error (msgErr "Empty response from AI")
  else
    match parse text with
    | some j => .ok j
    | none => .error (msgErr "SyntaxError: unexpected token in JSON")

/-! ## askTutor request builders (first revision lines 203-230, third
revision lines 554-586) -/

/-- Chat roles of the tutoring history (src/components/SmartTutor.tsx:
`role: 'user' | 'model'`). -/
inductive Role where
  | user
  | model
deriving DecidableEq

/-- One turn of the tutoring conversation. -/
structure ChatMessage where
  role : Role
  text : String
deriving DecidableEq

/-- The prompt template of the first-revision `askTutor`
(src/services/geminiService.ts lines 211-216); the history parameter is
not used anywhere in that revision. -/
def tutorPromptV1 (question : String) : String :=
  "\n        You are a helpful and friendly tutor. The user is asking a question about the provided textbook pages.\n        Answer simply and clearly. If the user asks for an explanation, use analogies suitable for a student.\n        \n        User Question: \"" ++ question ++ "\"\n        "

/-- Request parts built by the first-revision `askTutor`
(src/services/geminiService.ts lines 203-230): image parts plus the prompt;
`history` is ignored. -/
def askTutorRequestV1 (images : List ImageInput) (history : List ChatMessage) (question : String) : List ReqPart :=
  prepareImageParts images ++ [.text (tutorPromptV1 question)]

/-- The role-tagged text of one history turn, as built by the
third-revision `askTutor` (src/services/geminiService.ts lines 563-565):
`(role === 'model' ? 'Tutor' : 'Student') + ': ' + text`. -/
def tagHistoryText (m : ChatMessage) : String :=
  (match m.role with
   | .model => "Tutor"
   | .user => "Student") ++ ": " ++ m.text

/-- The request part holding one role-tagged history turn. -/
def taggedHistoryPart (m : ChatMessage) : ReqPart := .text (tagHistoryText m)

/-- Request parts built by the third-revision `askTutor`
(src/services/geminiService.ts lines 554-586): image parts, then one
tagged text part per history turn in order, then the new question. -/
def askTutorRequestV3 (images : List ImageInput) (history : List ChatMessage) (question : String) : List ReqPart :=
  (images.map fun img => ReqPart.inlineData img.base64 img.mimeType) ++
    history.map taggedHistoryPart ++
    [.text ("Answer briefly in Bengali based on the provided material: " ++ question)]

/-- Left inverse of `tagHistoryText`, used to show role-tagging is
injective. -/
def untagHistoryText (s : String) : ChatMessage :=
  if leadsList "Tutor: ".data s.data then ⟨.model, ⟨s.data.drop 7⟩⟩
  else ⟨.user, ⟨s.data.drop 9⟩⟩

/-! ## Step lemmas for the two retry executors -/

theorem retryV1_ok {α : Type} {op : Nat → Outcome α} {a : Nat} {v : α}
    (h : op a = .ok v) (r : Nat) (d : ℚ) :
    retryV1 op a r d = ⟨.ok v, 1, []⟩ := by
  cases r <;> simp [retryV1, h]

theorem retryV1_retry {α : Type} {op : Nat → Outcome α} {a : Nat} {e : JsError}
    (h : op a = .err e) (hq : isQuotaError e = true) (r : Nat) (d : ℚ) :
    retryV1 op a (r + 1) d =
      ⟨(retryV1 op (a + 1) r (min (d * 2) 60000)).result,
       (retryV1 op (a + 1) r (min (d * 2) 60000)).calls + 1,
       d :: (retryV1 op (a + 1) r (min (d * 2) 60000)).waits⟩ := by
  simp [retryV1, h, hq]

theorem retryV1_noRetry {α : Type} {op : Nat → Outcome α} {a : Nat} {e : JsError}
    (h : op a = .err e) (hq : isQuotaError e = false) (r : Nat) (d : ℚ) :
    retryV1 op a r d = ⟨.error e, 1, []⟩ := by
  cases r <;> simp [retryV1, h, hq]

theorem retryV1_exhausted {α : Type} {op : Nat → Outcome α} {a : Nat} {e : JsError}
    (h : op a = .err e) (d : ℚ) :
    retryV1 op a 0 d = ⟨.error e, 1, []⟩ := by
  simp [retryV1, h]

theorem retryV1_calls_pos {α : Type} (op : Nat → Outcome α) (a r : Nat) (d : ℚ) :
    1 ≤ (retryV1 op a r d).calls := by
  cases hop : op a with
  | ok v => rw [retryV1_ok hop]
  | err e =>
    cases hq : isQuotaError e with
    | false => rw [retryV1_noRetry hop hq]
    | true =>
      cases r with
      | zero => rw [retryV1_exhausted hop]
      | succ n => simp [retryV1_retry hop hq]

theorem retryV2_ok {α : Type} {op : Nat → Outcome α} {a : Nat} {v : α}
    (h : op a = .ok v) (r : Nat) (d : ℚ) :
    retryV2 op a r d = ⟨.ok v, 1, []⟩ := by
  cases r <;> simp [retryV2, h]

theorem retryV2_retry {α : Type} {op : Nat → Outcome α} {a : Nat} {e : JsError}
    (h : op a = .err e) (ht : isTransientV2 e = true) (r : Nat) (d : ℚ) :
    retryV2 op a (r + 1) d =
      ⟨(retryV2 op (a + 1) r (d * (3 / 2))).result,
       (retryV2 op (a + 1) r (d * (3 / 2))).calls + 1,
       d :: (retryV2 op (a + 1) r (d * (3 / 2))).waits⟩ := by
  simp [retryV2, h, ht]

theorem retryV2_noRetry {α : Type} {op : Nat → Outcome α} {a : Nat} {e : JsError}
    (h : op a = .err e) (ht : isTransientV2 e = false) (r : Nat) (d : ℚ) :
    retryV2 op a r d =
      ⟨.error (if isRateLimit e then msgErr rateLimitExhaustedMsg
               else msgErr connectionFailedMsg), 1, []⟩ := by
  cases hrl : isRateLimit e <;> cases r <;> simp [retryV2, h, ht, hrl]

theorem retryV2_exhausted {α : Type} {op : Nat → Outcome α} {a : Nat} {e : JsError}
    (h : op a = .err e) (d : ℚ) :
    retryV2 op a 0 d =
      ⟨.error (if isRateLimit e then msgErr rateLimitExhaustedMsg
               else msgErr connectionFailedMsg), 1, []⟩ := by
  cases hrl : isRateLimit e <;> simp [retryV2, h, hrl]

theorem retryV2_calls_pos {α : Type} (op : Nat → Outcome α) (a r : Nat) (d : ℚ) :
    1 ≤ (retryV2 op a r d).calls := by
  cases hop : op a with
  | ok v => rw [retryV2_ok hop]
  | err e =>
    cases ht : isTransientV2 e with
    | false => rw [retryV2_noRetry hop ht]
    | true =>
      cases r with
      | zero => rw [retryV2_exhausted hop]
      | succ n => simp [retryV2_retry hop ht]

theorem isRateLimit_isTransientV2 {e : JsError} (h : isRateLimit e = true) :
    isTransientV2 e = true := by
  simp [isTransientV2, h]

/-! ## Whole-run lemmas -/

/-- The successive waits of the first-revision executor when starting from
delay `d`: each next delay is `min (previous * 2) 60000`. -/
def delaysV1 (d : ℚ) : Nat → List ℚ
  | 0 => []
  | k + 1 => d :: delaysV1 (min (d * 2) 60000) k

/-- The successive waits of the second-revision executor: each next delay
is `previous * 1.5`, uncapped. -/
def delaysV2 (d : ℚ) : Nat → List ℚ
  | 0 => []
  | k + 1 => d :: delaysV2 (d * (3 / 2)) k

theorem retryV1_quota_then_ok {α : Type} (op : Nat → Outcome α) (es : Nat → JsError) (v : α) :
    ∀ (k a r : Nat) (d : ℚ),
      (∀ j, j < k → op (a + j) = .err (es (a + j)) ∧ isQuotaError (es (a + j)) = true) →
      op (a + k) = .ok v → k ≤ r →
      retryV1 op a r d = ⟨.ok v, k + 1, delaysV1 d k⟩ := by
  intro k
  induction k with
  | zero =>
    intro a r d _ hs _
    rw [retryV1_ok (by simpa using hs)]
    simp [delaysV1]
  | succ k ih =>
    intro a r d hf hs hkr
    obtain ⟨h0, hq0⟩ := hf 0 (Nat.succ_pos k)
    simp only [Nat.add_zero] at h0 hq0
    cases r with
    | zero => omega
    | succ r =>
      rw [retryV1_retry h0 hq0,
        ih (a + 1) r (min (d * 2) 60000)
          (fun j hj => by
            have := hf (j + 1) (by omega)
            rwa [show a + (j + 1) = a + 1 + j by omega] at this)
          (by rwa [show a + 1 + k = a + (k + 1) by omega])
          (by omega)]
      simp [delaysV1]

theorem retryV1_quota_exhaust {α : Type} (op : Nat → Outcome α) (es : Nat → JsError)
    (h : ∀ j, op j = .err (es j)) (hq : ∀ j, isQuotaError (es j) = true) :
    ∀ (r a : Nat) (d : ℚ),
      retryV1 op a r d = ⟨.error (es (a + r)), r + 1, delaysV1 d r⟩ := by
  intro r
  induction r with
  | zero =>
    intro a d
    rw [retryV1_exhausted (h a)]
    simp [delaysV1]
  | succ r ih =>
    intro a d
    rw [retryV1_retry (h a) (hq a), ih (a + 1) (min (d * 2) 60000),
      show a + 1 + r = a + (r + 1) by omega]
    simp [delaysV1]

theorem retryV2_transient_exhaust {α : Type} (op : Nat → Outcome α) (es : Nat → JsError)
    (h : ∀ j, op j = .err (es j)) (ht : ∀ j, isTransientV2 (es j) = true) :
    ∀ (r a : Nat) (d : ℚ),
      retryV2 op a r d =
        ⟨.error (if isRateLimit (es (a + r)) then msgErr rateLimitExhaustedMsg
                 else msgErr connectionFailedMsg), r + 1, delaysV2 d r⟩ := by
  intro r
  induction r with
  | zero =>
    intro a d
    rw [retryV2_exhausted (h a)]
    simp [delaysV2]
  | succ r ih =>
    intro a d
    rw [retryV2_retry (h a) (ht a), ih (a + 1) (d * (3 / 2)),
      show a + 1 + r = a + (r + 1) by omega]
    simp [delaysV2]

theorem one_le_two_pow_rat (i : Nat) : (1 : ℚ) ≤ 2 ^ i := by
  induction i with
  | zero => norm_num
  | succ n ihn => rw [pow_succ]; nlinarith

theorem min_cap_mul {x c m : ℚ} (hm : 1 ≤ m) (hc : 0 ≤ c) :
    min (min x c * m) c = min (x * m) c := by
  rcases le_total x c with hxc | hcx
  · rw [min_eq_left hxc]
  · rw [min_eq_right hcx, min_eq_right (le_mul_of_one_le_right hc hm),
      min_eq_right ((hcx.trans (le_mul_of_one_le_right (hc.trans hcx) hm)))]

theorem delaysV1_get :
    ∀ (r i : Nat) (d : ℚ), 0 ≤ d → d ≤ 60000 → i < r →
      (delaysV1 d r)[i]? = some (min (d * 2 ^ i) 60000) := by
  intro r
  induction r with
  | zero => intro i d _ _ h; omega
  | succ r ih =>
    intro i d hd0 hdc hi
    cases i with
    | zero =>
      simp [delaysV1, min_eq_left hdc]
    | succ i =>
      rw [delaysV1]
      simp only [List.getElem?_cons_succ]
      rw [ih i (min (d * 2) 60000) (le_min (by linarith) (by norm_num))
        (min_le_right _ _) (by omega)]
      rw [min_cap_mul (one_le_two_pow_rat i) (by norm_num)]
      ring_nf

/-! ## Claim theorems: the retry executor (C1 - C5) -/

/-- Modelled from the spec: its transient classification by the words of
section 4.2 alone — "a failure is transient if it signals rate-limiting
(HTTP 429 / quota-exceeded) or upstream overload (HTTP 500/503 /
overloaded)" — read off the failure message.  Used only to compare the
spec classification with the code classifiers. -/
def specSignalsTransient (e : JsError) : Bool :=
  jsIncludes (lowerMessage e) "429" || jsIncludes (lowerMessage e) "quota" ||
    jsIncludes (lowerMessage e) "500" || jsIncludes (lowerMessage e) "503" ||
    jsIncludes (lowerMessage e) "overloaded"

/-- Claim C1, counterexample: an HTTP 503 failure ("503 Service
Unavailable") signals upstream overload per the spec classification, yet
neither executor classifies it as transient, and both raise after exactly
one invocation even with budget remaining. -/
theorem c1_transient_503_counterexample :
    specSignalsTransient (msgErr "503 Service Unavailable") = true ∧
    isQuotaError (msgErr "503 Service Unavailable") = false ∧
    isTransientV2 (msgErr "503 Service Unavailable") = false ∧
    (@retryWithBackoff Nat (fun _ => .err (msgErr "503 Service Unavailable")) 10 5000).calls = 1 ∧
    (@retryWithBackoffV2 Nat (fun _ => .err (msgErr "503 Service Unavailable")) 3 2000).calls = 1 :=
  ⟨by decide, by decide, by decide, by decide, by decide⟩

/-- Claim C1 (amended): each executor retries a first-attempt failure
exactly when retry budget remains and its own classifier marks the failure
transient — `isQuotaError` (429 / quota / resource_exhausted) for the
first revision, `isTransientV2` (429 / quota / 500 / "overloaded", but not
a bare 503) for the second; every other failure is never retried. -/
theorem c1_retry_iff_classified_transient {α : Type} (op : Nat → Outcome α) (e : JsError)
    (h : op 0 = .err e) (r : Nat) (d : ℚ) :
    (2 ≤ (retryWithBackoff op r d).calls ↔ 0 < r ∧ isQuotaError e = true) ∧
    (2 ≤ (retryWithBackoffV2 op r d).calls ↔ 0 < r ∧ isTransientV2 e = true) := by
  rw [retryWithBackoff, retryWithBackoffV2]
  constructor
  · cases hq : isQuotaError e with
    | false => rw [retryV1_noRetry h hq]; simp
    | true =>
      cases r with
      | zero => rw [retryV1_exhausted h]; simp
      | succ n =>
        rw [retryV1_retry h hq]
        have := retryV1_calls_pos op 1 n (min (d * 2) 60000)
        simp only [Nat.succ_eq_add_one]
        constructor
        · intro _; exact ⟨Nat.succ_pos n, trivial⟩
        · intro _; simpa using Nat.add_le_add_right this 1
  · cases ht : isTransientV2 e with
    | false => rw [retryV2_noRetry h ht]; simp
    | true =>
      cases r with
      | zero => rw [retryV2_exhausted h]; simp
      | succ n =>
        rw [retryV2_retry h ht]
        have := retryV2_calls_pos op 1 n (d * (3 / 2))
        simp only [Nat.succ_eq_add_one]
        constructor
        · intro _; exact ⟨Nat.succ_pos n, trivial⟩
        · intro _; simpa using Nat.add_le_add_right this 1

/-- Witness for `c1_retry_iff_classified_transient` at a concrete
quota-failing operation. -/
theorem c1_retry_iff_classified_transient_witness :
    (2 ≤ (@retryWithBackoff Nat (fun _ => .err (msgErr "quota")) 2 5000).calls ↔
      0 < 2 ∧ isQuotaError (msgErr "quota") = true) ∧
    (2 ≤ (@retryWithBackoffV2 Nat (fun _ => .err (msgErr "quota")) 2 5000).calls ↔
      0 < 2 ∧ isTransientV2 (msgErr "quota") = true) :=
  c1_retry_iff_classified_transient (fun _ => .err (msgErr "quota")) (msgErr "quota") rfl 2 5000

/-- Claim C2, counterexample: an operation failing transiently
("overloaded") on every attempt is invoked `maxRetries + 1` times, but the
error then raised is the generic connection-failure error — byte-for-byte
the error raised for a terminal failure ("network down") — not a distinct
transient-exhausted "service busy" condition. -/
theorem c2_overload_exhaustion_counterexample :
    isTransientV2 (msgErr "overloaded") = true ∧
    (@retryWithBackoffV2 Nat (fun _ => .err (msgErr "overloaded")) 3 2000).calls = 4 ∧
    (@retryWithBackoffV2 Nat (fun _ => .err (msgErr "overloaded")) 3 2000).result
      = .error (msgErr connectionFailedMsg) ∧
    isTransientV2 (msgErr "network down") = false ∧
    (@retryWithBackoffV2 Nat (fun _ => .err (msgErr "network down")) 3 2000).calls = 1 ∧
    (@retryWithBackoffV2 Nat (fun _ => .err (msgErr "network down")) 3 2000).result
      = .error (msgErr connectionFailedMsg) :=
  ⟨by decide, by decide, by rfl, by decide, by decide, by rfl⟩

/-- Claim C2 (amended): an operation failing on every attempt with
rate-limit-kind errors is invoked exactly `n + 1` times under
`maxRetries = n` by both executors; the second revision then raises the
distinct busy condition ("API limit exhausted, retry in a minute"), while
the first revision re-raises the operation's last error unchanged. -/
theorem c2_exhaustion_calls_and_busy_error {α : Type} (op : Nat → Outcome α)
    (es : Nat → JsError) (h : ∀ j, op j = .err (es j))
    (hq : ∀ j, isQuotaError (es j) = true) (hrl : ∀ j, isRateLimit (es j) = true)
    (n : Nat) (d : ℚ) :
    (retryWithBackoff op n d).calls = n + 1 ∧
    (retryWithBackoff op n d).result = .error (es n) ∧
    (retryWithBackoffV2 op n d).calls = n + 1 ∧
    (retryWithBackoffV2 op n d).result = .error (msgErr rateLimitExhaustedMsg) := by
  rw [retryWithBackoff, retryWithBackoffV2, retryV1_quota_exhaust op es h hq n 0 d,
    retryV2_transient_exhaust op es h (fun j => isRateLimit_isTransientV2 (hrl j)) n 0 d]
  have h5 := hrl n
  simp [h5]

/-- Witness for `c2_exhaustion_calls_and_busy_error` with a constant
"quota" failure and `maxRetries = 1`. -/
theorem c2_exhaustion_calls_and_busy_error_witness :
    (@retryWithBackoff Nat (fun _ => .err (msgErr "quota")) 1 2000).calls = 1 + 1 ∧
    (@retryWithBackoff Nat (fun _ => .err (msgErr "quota")) 1 2000).result
      = .error (msgErr "quota") ∧
    (@retryWithBackoffV2 Nat (fun _ => .err (msgErr "quota")) 1 2000).calls = 1 + 1 ∧
    (@retryWithBackoffV2 Nat (fun _ => .err (msgErr "quota")) 1 2000).result
      = .error (msgErr rateLimitExhaustedMsg) :=
  c2_exhaustion_calls_and_busy_error (fun _ => .err (msgErr "quota")) (fun _ => msgErr "quota")
    (fun _ => rfl) (fun _ => show isQuotaError (msgErr "quota") = true by decide)
    (fun _ => show isRateLimit (msgErr "quota") = true by decide) 1 2000

/-- Claim C3 (confirmed): an operation that fails with quota-classified
(transient) errors on exactly its first `k` attempts and succeeds on
attempt `k`, run with `k < maxRetries`, returns the success value and is
invoked exactly `k + 1` times. -/
theorem c3_transient_then_success {α : Type} (op : Nat → Outcome α) (es : Nat → JsError)
    (v : α) (k r : Nat) (d : ℚ)
    (hf : ∀ j, j < k → op j = .err (es j) ∧ isQuotaError (es j) = true)
    (hs : op k = .ok v) (hkr : k < r) :
    (retryWithBackoff op r d).result = .ok v ∧ (retryWithBackoff op r d).calls = k + 1 := by
  rw [retryWithBackoff,
    retryV1_quota_then_ok op es v k 0 r d (by simpa using hf) (by simpa using hs)
      (le_of_lt hkr)]
  exact ⟨rfl, rfl⟩

/-- Witness for `c3_transient_then_success`: two quota failures, then the
value 7, with `maxRetries = 3`. -/
theorem c3_transient_then_success_witness :
    ((retryWithBackoff (fun j => if j < 2 then .err (msgErr "quota") else .ok 7) 3 5000).result
        = .ok 7) ∧
    (retryWithBackoff (fun j => if j < 2 then .err (msgErr "quota") else .ok 7) 3 5000).calls
        = 2 + 1 :=
  c3_transient_then_success (fun j => if j < 2 then .err (msgErr "quota") else .ok 7)
    (fun _ => msgErr "quota") 7 2 3 5000
    (fun j hj => ⟨by simp [hj], show isQuotaError (msgErr "quota") = true by decide⟩)
    (by rfl) (by decide)

/-- Claim C4 (confirmed): an operation whose first attempt fails with an
error neither executor classifies as transient is invoked exactly once and
the error is raised immediately, whatever the remaining budget: the first
revision rethrows it unchanged, the second wraps it in its generic
connection-failure error. -/
theorem c4_terminal_first_attempt {α : Type} (op : Nat → Outcome α) (e : JsError)
    (h : op 0 = .err e) (hq : isQuotaError e = false) (ht : isTransientV2 e = false)
    (r : Nat) (d : ℚ) :
    retryWithBackoff op r d = ⟨.error e, 1, []⟩ ∧
    retryWithBackoffV2 op r d = ⟨.error (msgErr connectionFailedMsg), 1, []⟩ := by
  have hrl : isRateLimit e = false := by
    cases hrl : isRateLimit e with
    | false => rfl
    | true => rw [isRateLimit_isTransientV2 hrl] at ht; exact absurd ht (by simp)
  rw [retryWithBackoff, retryWithBackoffV2, retryV1_noRetry h hq, retryV2_noRetry h ht, hrl]
  simp

/-- Witness for `c4_terminal_first_attempt` at a terminal failure with a
large remaining budget. -/
theorem c4_terminal_first_attempt_witness :
    @retryWithBackoff Nat (fun _ => .err (msgErr "invalid api key")) 10 5000
        = ⟨.error (msgErr "invalid api key"), 1, []⟩ ∧
    @retryWithBackoffV2 Nat (fun _ => .err (msgErr "invalid api key")) 10 5000
        = ⟨.error (msgErr connectionFailedMsg), 1, []⟩ :=
  c4_terminal_first_attempt (fun _ => .err (msgErr "invalid api key"))
    (msgErr "invalid api key") rfl (by decide) (by decide) 10 5000

/-- Claim C5, counterexample: with `initialDelay = 120000` (above the
60000 ms cap) and a quota-failing operation, the wait inserted after the
first attempt is 120000 ms, not `min(initialDelay * 2 ^ 0, 60000) = 60000`:
the first wait is never capped. -/
theorem c5_first_delay_uncapped_counterexample :
    (@retryWithBackoff Nat (fun _ => .err (msgErr "quota")) 1 120000).waits[0]?
        = some 120000 ∧
    min ((120000 : ℚ) * 2 ^ 0) 60000 = 60000 ∧ ((120000 : ℚ) ≠ 60000) :=
  ⟨rfl, by norm_num, by norm_num⟩

/-- Claim C5 (amended): for the first-revision executor (multiplier 2, cap
60000 ms hard-coded), provided `0 ≤ initialDelay ≤ 60000`, the wait
inserted between attempt `i+1` and attempt `i+2` of a transiently failing
run equals `min(initialDelay * 2 ^ i, 60000)`; without the proviso the
first wait is the uncapped `initialDelay`. -/
theorem c5_delay_growth_capped {α : Type} (op : Nat → Outcome α) (es : Nat → JsError)
    (h : ∀ j, op j = .err (es j)) (hq : ∀ j, isQuotaError (es j) = true)
    (d : ℚ) (hd0 : 0 ≤ d) (hdc : d ≤ 60000) (r i : Nat) (hi : i < r) :
    (retryWithBackoff op r d).waits[i]? = some (min (d * 2 ^ i) 60000) := by
  rw [retryWithBackoff, retryV1_quota_exhaust op es h hq r 0 d]
  exact delaysV1_get r i d hd0 hdc hi

/-- Witness for `c5_delay_growth_capped`: the second wait of an exhausted
run starting from 5000 ms. -/
theorem c5_delay_growth_capped_witness :
    (@retryWithBackoff Nat (fun _ => .err (msgErr "quota")) 2 5000).waits[1]?
        = some (min ((5000 : ℚ) * 2 ^ 1) 60000) :=
  c5_delay_growth_capped (fun _ => .err (msgErr "quota")) (fun _ => msgErr "quota")
    (fun _ => rfl) (fun _ => show isQuotaError (msgErr "quota") = true by decide)
    5000 (by norm_num) (by norm_num) 2 1 (by decide)

/-! ## Claim theorems: image preparation (C6, C7) -/

/-- Claim C6 (confirmed): for nonnegative dimensions and a positive bound,
`resizeImage`'s dimension computation leaves an image whose larger side is
within `maxDimension` unchanged, and otherwise scales it so the larger side
equals `maxDimension` exactly, preserving the aspect ratio
(`newWidth * height = width * newHeight`). -/
theorem c6_resize_dimensions (w h maxW : ℚ) (hw : 0 ≤ w) (hh : 0 ≤ h) (hmax : 0 < maxW) :
    (max w h ≤ maxW → computeDims w h maxW = (w, h)) ∧
    (maxW < max w h →
      max (computeDims w h maxW).1 (computeDims w h maxW).2 = maxW ∧
      (computeDims w h maxW).1 * h = w * (computeDims w h maxW).2) := by
  constructor
  · intro hle
    rcases max_le_iff.mp hle with ⟨h1, h2⟩
    unfold computeDims
    by_cases hwh : w > h
    · rw [if_pos hwh, if_neg (by linarith : ¬ w > maxW)]
    · rw [if_neg hwh, if_neg (by linarith : ¬ h > maxW)]
  · intro hgt
    by_cases hwh : w > h
    · have hwm : w > maxW := by rwa [max_eq_left hwh.le] at hgt
      have hw0 : (0 : ℚ) < w := lt_trans hmax hwm
      have key : computeDims w h maxW = (maxW, h * (maxW / w)) := by
        unfold computeDims; rw [if_pos hwh, if_pos hwm]
      rw [key]
      have hsc : h * (maxW / w) ≤ maxW := by
        have hstep : h * (maxW / w) ≤ w * (maxW / w) :=
          mul_le_mul_of_nonneg_right hwh.le (by positivity)
        have hcancel : w * (maxW / w) = maxW := by field_simp
        linarith
      refine ⟨max_eq_left hsc, ?_⟩
      show maxW * h = w * (h * (maxW / w))
      field_simp
      ring
    · have hwh2 : w ≤ h := not_lt.mp hwh
      have hhm : h > maxW := by rwa [max_eq_right hwh2] at hgt
      have hh0 : (0 : ℚ) < h := lt_trans hmax hhm
      have key : computeDims w h maxW = (w * (maxW / h), maxW) := by
        unfold computeDims; rw [if_neg hwh, if_pos hhm]
      rw [key]
      have hsc : w * (maxW / h) ≤ maxW := by
        have hstep : w * (maxW / h) ≤ h * (maxW / h) :=
          mul_le_mul_of_nonneg_right hwh2 (by positivity)
        have hcancel : h * (maxW / h) = maxW := by field_simp
        linarith
      refine ⟨max_eq_right hsc, ?_⟩
      show (w * (maxW / h)) * h = w * maxW
      field_simp

/-- Witness for `c6_resize_dimensions` on a 2000 x 3000 image with
`maxDimension = 1024` (spec section 8, property 10). -/
theorem c6_resize_dimensions_witness :
    (max (2000 : ℚ) 3000 ≤ 1024 → computeDims 2000 3000 1024 = (2000, 3000)) ∧
    ((1024 : ℚ) < max 2000 3000 →
      max (computeDims 2000 3000 1024).1 (computeDims 2000 3000 1024).2 = 1024 ∧
      (computeDims 2000 3000 1024).1 * 3000 = 2000 * (computeDims 2000 3000 1024).2) :=
  c6_resize_dimensions 2000 3000 1024 (by norm_num) (by norm_num) (by norm_num)

/-- Claim C7: at an input whose image data fails to decode, the
src/unnamed/part_000 revision of `resizeImage` (which installs no
`onerror` handler) never settles — it produces no value at all, rather
than completing with the original data — while the
src/services/geminiService.ts revision resolves with the original,
unmodified base64 payload. -/
theorem c7_decode_failure_eval :
    resizeImageNoErrorHandler ⟨fun _ => none, fun _ _ _ _ _ => ""⟩ "AAAA" "image/png" 1024
        = none ∧
    resizeImage ⟨fun _ => none, fun _ _ _ _ _ => ""⟩ "AAAA" "image/png" 1024 = "AAAA" ∧
    (none : Option String) ≠ some "AAAA" :=
  ⟨rfl, rfl, by decide⟩

/-! ## Claim theorems: analyzeChapter response handling (C8) -/

/-- A transport-successful response whose JSON has `summary` and
`questions` but no `topics` field. -/
def respMissingTopics : String := "\x7b\"summary\":\"s\",\"questions\":[]\x7d"

/-- The value `JSON.parse` yields on `respMissingTopics`. -/
def parsedMissingTopics : Json := .obj [("summary", .str "s"), ("questions", .arr [])]

/-- `JSON.parse` restricted to the one input the counterexample needs
(`JSON.parse` is an external browser builtin; on this well-formed object
literal it succeeds with the two-field object). -/
def parseJsonMissingTopics : String → Option Json :=
  fun s => if s = respMissingTopics then some parsedMissingTopics else none

/-- Claim C8, counterexample: `analyzeChapter` given a parsed response
missing the `topics` field returns it successfully, unvalidated — it is
not treated as a parse failure and no error is propagated. -/
theorem c8_missing_topics_counterexample :
    analyzeChapterHandle (some respMissingTopics) parseJsonMissingTopics
        = .ok parsedMissingTopics ∧
    parsedMissingTopics.hasField "topics" = false ∧
    parsedMissingTopics.hasField "summary" = true ∧
    parsedMissingTopics.hasField "questions" = true :=
  ⟨rfl, by decide, by decide, by decide⟩

/-- Claim C8 (amended): `analyzeChapter` performs no shape validation —
whenever the fence-stripped response text is non-empty and `JSON.parse`
succeeds, the parsed value is returned as-is (topics present or not, and
never defaulted); only an empty stripped text is treated as a failure
("Empty response from AI"). -/
theorem c8_no_shape_validation (t : String) (parse : String → Option Json) (j : Json)
    (h1 : stripFences t ≠ "") (h2 : parse (stripFences t) = some j) :
    analyzeChapterHandle (some t) parse = .ok j ∧
    analyzeChapterHandle (some "") parse = .error (msgErr "Empty response from AI") := by
  refine ⟨?_, rfl⟩
  simp only [analyzeChapterHandle, Option.getD_some]
  rw [if_neg h1, h2]

/-- Witness for `c8_no_shape_validation` at the topics-less response. -/
theorem c8_no_shape_validation_witness :
    analyzeChapterHandle (some respMissingTopics) parseJsonMissingTopics
        = .ok parsedMissingTopics ∧
    analyzeChapterHandle (some "") parseJsonMissingTopics
        = .error (msgErr "Empty response from AI") :=
  c8_no_shape_validation respMissingTopics parseJsonMissingTopics parsedMissingTopics
    (by decide) (by rfl)

/-! ## Claim theorems: askTutor request building (C9) -/

theorem untag_tag (m : ChatMessage) : untagHistoryText (tagHistoryText m) = m := by
  obtain ⟨r, t⟩ := m
  cases r <;> rfl

theorem taggedHistoryPart_injective : Function.Injective taggedHistoryPart := by
  intro m1 m2 hEq
  have h2 : tagHistoryText m1 = tagHistoryText m2 := by
    simpa [taggedHistoryPart, ReqPart.text.injEq] using hEq
  have h3 := congrArg untagHistoryText h2
  rwa [untag_tag, untag_tag] at h3

/-- Claim C9, counterexample: the first-revision `askTutor` ignores its
`history` parameter — two calls with the same images and question but
different histories build identical requests. -/
theorem c9_history_ignored_counterexample :
    askTutorRequestV1 [] [⟨Role.user, "hello"⟩] "What is photosynthesis" =
      askTutorRequestV1 [] [] "What is photosynthesis" ∧
    ([⟨Role.user, "hello"⟩] : List ChatMessage) ≠ [] :=
  ⟨rfl, by decide⟩

/-- Claim C9 (amended): the third-revision `askTutor` includes every prior
history turn, in order and tagged by role, after the image parts — so two
of its calls with the same images and question but different histories
build different requests; the first-revision `askTutor` ignores history
entirely. -/
theorem c9_v3_history_tagged_and_injective (imgs : List ImageInput)
    (h1 h2 : List ChatMessage) (q : String) :
    (∀ k, k < h1.length →
      (askTutorRequestV3 imgs h1 q)[imgs.length + k]? = (h1[k]?).map taggedHistoryPart) ∧
    (h1 ≠ h2 → askTutorRequestV3 imgs h1 q ≠ askTutorRequestV3 imgs h2 q) := by
  constructor
  · intro k hk
    rw [askTutorRequestV3, List.append_assoc]
    rw [List.getElem?_append_right
      (by simp : (imgs.map fun img => ReqPart.inlineData img.base64 img.mimeType).length
        ≤ imgs.length + k)]
    simp only [List.length_map, Nat.add_sub_cancel_left]
    rw [List.getElem?_append_left (by simpa using hk)]
    simp [List.getElem?_map]
  · intro hne heq
    apply hne
    rw [askTutorRequestV3, askTutorRequestV3, List.append_assoc, List.append_assoc] at heq
    have h3 := List.append_cancel_left heq
    have h4 := List.append_cancel_right h3
    exact List.map_injective_iff.mpr taggedHistoryPart_injective h4

/-- Witness for `c9_v3_history_tagged_and_injective` with one model turn. -/
theorem c9_v3_history_tagged_and_injective_witness :
    (askTutorRequestV3 [] [⟨Role.model, "hi"⟩] "q")[0]?
        = some (taggedHistoryPart ⟨Role.model, "hi"⟩) ∧
    askTutorRequestV3 [] [⟨Role.model, "hi"⟩] "q" ≠ askTutorRequestV3 [] [] "q" := by
  have H := c9_v3_history_tagged_and_injective [] [⟨Role.model, "hi"⟩] [] "q"
  exact ⟨H.1 0 (by decide), H.2 (by decide)⟩

/-! ## Claim theorems: one inline part per image (C10) -/

/-- A browser environment in which the png-tagged copy of payload "AAAA"
decodes (2000 x 1000) while the jpeg-tagged copy fails to decode, and
re-encoding always yields the payload "RESIZED"; used only by the C10
counterexample and consistent with a real browser, where decoding and
re-encoding both consult the mime type. -/
def envC10 : BrowserEnv :=
  ⟨fun url => if url = imageDataUrl "image/png" "AAAA" then some (2000, 1000) else none,
   fun _ _ _ _ _ => "data:image/png;base64,RESIZED"⟩

/-- Claim C10, counterexample: in the resizing builder `prepareImages`,
two images with identical `base64` fields but different mime types can
yield parts with different payload data — the payload is not derived from
the `base64` field alone (the mime type feeds decoding and re-encoding). -/
theorem c10_payload_depends_on_mime_counterexample :
    (ImageInput.mk "AAAA" "image/png").base64 = (ImageInput.mk "AAAA" "image/jpeg").base64 ∧
    prepareImages envC10 [⟨"AAAA", "image/png"⟩, ⟨"AAAA", "image/jpeg"⟩]
        = [.inlineData "RESIZED" "image/png", .inlineData "AAAA" "image/jpeg"] ∧
    ("RESIZED" : String) ≠ "AAAA" :=
  ⟨rfl, rfl, by decide⟩

/-- Claim C10 (amended): both request-part builders produce exactly one
inline-data part per input image, in input order, each carrying that
image's `mimeType` unchanged; the part's payload is derived from that
image's own fields only — exactly its `base64` in `prepareImageParts`, and
`resizeImage` of its `base64` and `mimeType` in `prepareImages`. -/
theorem c10_parts_per_image (env : BrowserEnv) (images : List ImageInput) (k : Nat) :
    ((prepareImageParts images).length = images.length) ∧
    ((prepareImages env images).length = images.length) ∧
    ((prepareImageParts images)[k]? =
      (images[k]?).map fun img => ReqPart.inlineData img.base64 img.mimeType) ∧
    ((prepareImages env images)[k]? =
      (images[k]?).map fun img =>
        ReqPart.inlineData (resizeImage env img.base64 img.mimeType 1024) img.mimeType) ∧
    (∀ p, p ∈ prepareImages env images → ∃ dat mt, p = ReqPart.inlineData dat mt) := by
  refine ⟨by simp [prepareImageParts], by simp [prepareImages], ?_, ?_, ?_⟩
  · simp [prepareImageParts, List.getElem?_map]
  · simp [prepareImages, List.getElem?_map]
  · intro p hp
    simp only [prepareImages, List.mem_map] at hp
    obtain ⟨img, _, rfl⟩ := hp
    exact ⟨_, _, rfl⟩

/-- Witness for `c10_parts_per_image` on a single png image under an
environment that decodes nothing. -/
theorem c10_parts_per_image_witness :
    ((prepareImages ⟨fun _ => none, fun _ _ _ _ _ => ""⟩ [⟨"x", "image/png"⟩]).length
        = ([(⟨"x", "image/png"⟩ : ImageInput)]).length) ∧
    (∃ dat mt, ReqPart.inlineData "x" "image/png" = ReqPart.inlineData dat mt) := by
  have H := c10_parts_per_image ⟨fun _ => none, fun _ _ _ _ _ => ""⟩ [⟨"x", "image/png"⟩] 0
  exact ⟨H.2.1, H.2.2.2.2 (ReqPart.inlineData "x" "image/png") (by decide)⟩
